import Mathlib

/-!
Shallow embedding of the phone_book service
(`phone_address_service`): pydantic model validation
(`models/schemas.py`), the Redis repository
(`repositories/redis_repository.py`) with the store modelled as an
association list from keys to stored values, the service layer
(`services/phone_address_service.py`) and the HTTP error classification
of `api/middleware.py`.

Modelling conventions:
- Python strings are Lean `String`; `len` counts code points in both.
- `datetime` values are abstract timestamps (`Nat`); serialization of a
  timestamp is lossless (ISO-8601 round-trips the datetimes produced
  here), so JSON carries timestamps abstractly.
- `str.strip()` is modelled over the whitespace characters exercised by
  the code and spec (ASCII whitespace); likewise the regex class `\d`
  is modelled as the ASCII digits named by the spec.
- Connectivity failures (ConnectionError/TimeoutError/RedisError) are
  environmental and outside the modelled state: the embedding covers
  the reachable-store paths, which is what the claims quantify over.
- Python exceptions are `PyError`: a `ValueError` (with a flag telling
  whether it is a pydantic `ValidationError`, which subclasses
  `ValueError`), a `TypeError`, or a `RuntimeError`.
-/

/-- Whitespace as stripped by `str.strip()` (ASCII subset). -/
def isSpaceChar (c : Char) : Bool :=
  c = ' ' || c = '\t' || c = '\n' || c = '\r' || c = '\x0b' || c = '\x0c'

/-- Drop leading whitespace of a character list. -/
def dropLeading (l : List Char) : List Char := l.dropWhile isSpaceChar

/-- Drop trailing whitespace of a character list. -/
def dropTrailing (l : List Char) : List Char :=
  (l.reverse.dropWhile isSpaceChar).reverse

/-- Character-list model of `str.strip()`. -/
def stripList (l : List Char) : List Char := dropTrailing (dropLeading l)

/-- Model of Python `str.strip()`. -/
def strip (s : String) : String := String.mk (stripList s.data)

/-- Regex class `\d` (ASCII digits, as the spec reads it). -/
def digitChar (c : Char) : Bool := '0' ≤ c && c ≤ '9'

/-- Regex class `[1-9]`. -/
def nonZeroDigit (c : Char) : Bool := '1' ≤ c && c ≤ '9'

/-- Body of the E.164 pattern after the optional sign: a non-zero digit
followed by 1 to 14 digits. -/
def phoneCore : List Char → Bool
  | [] => false
  | d :: rest =>
    nonZeroDigit d && decide (1 ≤ rest.length) && decide (rest.length ≤ 14)
      && rest.all digitChar

/-- Full-string match of the regex of `schemas.py` line 41,
`^\+?[1-9]\d{1,14}$` (the value is stripped before matching, so the
`$`-before-newline subtlety of `re` cannot arise). -/
def phoneMatchList : List Char → Bool
  | '+' :: rest => phoneCore rest
  | l => phoneCore l

/-- String form of the E.164 regex match. -/
def phoneMatch (s : String) : Bool := phoneMatchList s.data

/-- Validation of the `phone` field of `PhoneAddressRecord`
(`schemas.py` lines 12-17 and 33-49): pydantic first enforces the
`Field` constraints `min_length=1, max_length=20` on the raw value,
then the after-mode validator `validate_phone_format` strips the value
and matches the E.164 regex, returning the stripped string. -/
def validate_phone_format (v : String) : Except String String :=
  if v.length < 1 then .error "String should have at least 1 character"
  else if 20 < v.length then .error "String should have at most 20 characters"
  else if phoneMatch (strip v) then .ok (strip v)
  else .error "Phone number must be in E.164 format: + followed by 1-15 digits, starting with a non-zero digit"

/-- Validation of the `address` field (`schemas.py` lines 18-23 and
51-58): pydantic enforces `min_length=1, max_length=500` on the raw
value, then `validate_address` strips it and rejects an empty result,
returning the stripped string. -/
def validate_address (v : String) : Except String String :=
  if v.length < 1 then .error "String should have at least 1 character"
  else if 500 < v.length then .error "String should have at most 500 characters"
  else if strip v = "" then .error "Address cannot be empty or contain only whitespace"
  else .ok (strip v)

/-- The domain entity `PhoneAddressRecord` (`schemas.py`), with
timestamps abstracted to `Nat`. -/
structure PhoneAddressRecord where
  phone : String
  address : String
  created_at : Nat
  updated_at : Nat
deriving Repr, DecidableEq

/-- Python exceptions relevant to the embedding. A pydantic
`ValidationError` subclasses `ValueError`; the Boolean flag records
whether the `ValueError` is a pydantic `ValidationError`. -/
inductive PyError where
  | valueError (pydanticValidation : Bool) (msg : String)
  | typeError (msg : String)
  | runtimeError (msg : String)
deriving Repr, DecidableEq

/-- The message of an exception, `str(e)`. -/
def pyMsg : PyError → String
  | .valueError _ m => m
  | .typeError m => m
  | .runtimeError m => m

/-- Whether an exception is (an instance of) the built-in `ValueError`. -/
def isValueError : PyError → Bool
  | .valueError _ _ => true
  | _ => false

/-- Construction `PhoneAddressRecord(phone=..., address=...,
created_at=..., updated_at=...)`: pydantic validates the fields and
raises a `ValidationError` (one of the fixed field messages) when any
field fails. -/
def mkPhoneAddressRecord (phone address : String) (created_at updated_at : Nat) :
    Except PyError PhoneAddressRecord :=
  match validate_phone_format phone, validate_address address with
  | .ok p, .ok a => .ok ⟨p, a, created_at, updated_at⟩
  | .error e, _ => .error (.valueError true e)
  | _, .error e => .error (.valueError true e)

/-- Construction of `CreatePhoneAddressRequest` (`schemas.py` lines
61-102): identical validators, so the request carries the stripped
phone and stripped address. -/
def mkCreateRequest (phone address : String) : Except PyError (String × String) :=
  match validate_phone_format phone, validate_address address with
  | .ok p, .ok a => .ok (p, a)
  | .error e, _ => .error (.valueError true e)
  | _, .error e => .error (.valueError true e)

/-- Construction of `UpdateAddressRequest` (`schemas.py` lines
105-122): validates and strips the new address. -/
def mkUpdateRequest (address : String) : Except PyError String :=
  match validate_address address with
  | .ok a => .ok a
  | .error e => .error (.valueError true e)

/-- Boolean success test for `Except`. -/
def exceptOk {ε α : Type} : Except ε α → Bool
  | .ok _ => true
  | .error _ => false

/-- JSON values as stored in Redis. `jtime` carries a timestamp
abstractly (a value pydantic parses back to the same datetime, as
ISO-8601 strings do for the datetimes serialized here). -/
inductive Json where
  | jnull : Json
  | jstr : String → Json
  | jtime : Nat → Json
  | jobj : List (String × Json) → Json

/-- Serialization `record.model_dump_json()`
(`redis_repository.py` line 119): a JSON object with the fields
`phone, address, created_at, updated_at` in declaration order. -/
def recordToJson (r : PhoneAddressRecord) : Json :=
  .jobj [("phone", .jstr r.phone), ("address", .jstr r.address),
         ("created_at", .jtime r.created_at), ("updated_at", .jtime r.updated_at)]

/-- Lookup of a key in a JSON object (Python dict access). -/
def jLookup (fields : List (String × Json)) (k : String) : Option Json :=
  match fields with
  | [] => none
  | (k', v) :: rest => if k' = k then some v else jLookup rest k

/-- Extract a JSON string field. -/
def asStr : Option Json → Option String
  | some (.jstr s) => some s
  | _ => none

/-- Extract a JSON datetime field. -/
def asTime : Option Json → Option Nat
  | some (.jtime t) => some t
  | _ => none

/-- Deserialization `PhoneAddressRecord(**record_data)`
(`redis_repository.py` line 66): a non-object unpacks with a
`TypeError`; a missing or wrongly-typed field raises a pydantic
`ValidationError`; otherwise the model constructor re-validates the
fields. -/
def recordOfJson : Json → Except PyError PhoneAddressRecord
  | .jobj fields =>
    match asStr (jLookup fields "phone"), asStr (jLookup fields "address"),
          asTime (jLookup fields "created_at"), asTime (jLookup fields "updated_at") with
    | some p, some a, some c, some u => mkPhoneAddressRecord p a c u
    | _, _, _, _ => .error (.valueError true "Field required")
  | _ => .error (.typeError "argument after asterisks must be a mapping")

/-- A value held by Redis under some key: either a byte string that
`json.loads` rejects, or one that parses to a JSON value. -/
inductive StoredVal where
  | corrupt (raw : String) : StoredVal
  | jsonVal (j : Json) : StoredVal

/-- The Redis keyspace, modelled as an association list in which the
first binding of a key is its current value. -/
def Store := List (String × StoredVal)

/-- Redis `GET key`. -/
def storeGet (st : Store) (k : String) : Option StoredVal :=
  match st with
  | [] => none
  | (k', v) :: rest => if k' = k then some v else storeGet rest k

/-- Redis `SET key value` (an unconditional overwrite). -/
def storeSet (st : Store) (k : String) (v : StoredVal) : Store :=
  (k, v) :: st

/-- Redis `DEL key`: removes every binding of the key. -/
def storeDelete (st : Store) (k : String) : Store :=
  match st with
  | [] => []
  | (k', v) :: rest =>
    if k' = k then storeDelete rest k else (k', v) :: storeDelete rest k

/-- Redis `EXISTS key`. -/
def storeExists (st : Store) (k : String) : Bool :=
  (storeGet st k).isSome

/-- Key naming `RedisPhoneAddressRepository._make_key`
(`redis_repository.py` lines 26-28). -/
def make_key (phone : String) : String := "phone:" ++ phone

/-- The `ValueError` message of `redis_repository.py` line 116. -/
def dupMsg (phone : String) : String :=
  "Phone number " ++ phone ++ " already exists"

/-- `RedisPhoneAddressRepository.get` (`redis_repository.py` lines
49-101): a missing key is `None`; a stored value that `json.loads`
rejects raises `ValueError("Corrupted data in storage")`; any failure
of `PhoneAddressRecord(**record_data)` falls into the re-raising
`except` arms and propagates unchanged. -/
def redis_get (st : Store) (phone : String) : Except PyError (Option PhoneAddressRecord) :=
  match storeGet st (make_key phone) with
  | none => .ok none
  | some (.corrupt _) => .error (.valueError false "Corrupted data in storage")
  | some (.jsonVal j) =>
    match recordOfJson j with
    | .ok r => .ok (some r)
    | .error e => .error e

/-- `RedisPhoneAddressRepository.create` (`redis_repository.py` lines
103-161): checks existence first and raises the duplicate `ValueError`
without writing; otherwise serializes and writes. Redis acknowledges
the in-model write, so the `RuntimeError` arm for a failed `SET` is
unreachable here. The second component is the post-state. -/
def redis_create (st : Store) (record : PhoneAddressRecord) :
    Except PyError PhoneAddressRecord × Store :=
  if storeExists st (make_key record.phone) then
    (.error (.valueError false (dupMsg record.phone)), st)
  else
    (.ok record,
     storeSet st (make_key record.phone) (.jsonVal (recordToJson record)))

/-- `RedisPhoneAddressRepository.update` (`redis_repository.py` lines
163-223): reads the existing record via `self.get` (errors propagate,
state unchanged); `None` when missing; otherwise builds
`PhoneAddressRecord(phone=phone, address=address,
created_at=existing.created_at, updated_at=datetime.utcnow())` — whose
construction re-validates — and writes it back. `now` is the value of
`datetime.utcnow()` at this call. -/
def redis_update (st : Store) (phone address : String) (now : Nat) :
    Except PyError (Option PhoneAddressRecord) × Store :=
  match redis_get st phone with
  | .error e => (.error e, st)
  | .ok none => (.ok none, st)
  | .ok (some existing) =>
    match mkPhoneAddressRecord phone address existing.created_at now with
    | .error e => (.error e, st)
    | .ok updated =>
      (.ok (some updated),
       storeSet st (make_key phone) (.jsonVal (recordToJson updated)))

/-- `RedisPhoneAddressRepository.delete` (`redis_repository.py` lines
225-266): `DEL` the key and report whether a key was removed; a missing
key is a normal `false` outcome, no error. -/
def redis_delete (st : Store) (phone : String) : Bool × Store :=
  (storeExists st (make_key phone), storeDelete st (make_key phone))

/-- Phone pre-validation shared by the service operations
(`phone_address_service.py` lines 45-52, 150-157, 203-210): construct
`PhoneAddressRecord(phone=phone, address="temp")` and wrap any failure
in `ValueError("Invalid phone format: " + str(e))`. The defaulted
timestamps do not influence validation. -/
def service_phone_check (phone : String) : Except PyError Unit :=
  match mkPhoneAddressRecord phone "temp" 0 0 with
  | .ok _ => .ok ()
  | .error e => .error (.valueError false ("Invalid phone format: " ++ pyMsg e))

/-- `PhoneAddressService.get_address` (`phone_address_service.py` lines
30-81): validates the phone first, then delegates to repository `get`
with the raw phone argument. Read-only on the store. -/
def service_get_address (st : Store) (phone : String) :
    Except PyError (Option PhoneAddressRecord) :=
  match service_phone_check phone with
  | .error e => .error e
  | .ok _ => redis_get st phone

/-- `PhoneAddressService.create_record` (`phone_address_service.py`
lines 83-133) behind a `CreatePhoneAddressRequest` built from the raw
inputs (as the HTTP layer does): request validation strips both
fields, the service constructs the record with
`created_at = updated_at = now` and delegates to repository `create`. -/
def service_create_record (st : Store) (rawPhone rawAddress : String) (now : Nat) :
    Except PyError PhoneAddressRecord × Store :=
  match mkCreateRequest rawPhone rawAddress with
  | .error e => (.error e, st)
  | .ok (p, a) =>
    match mkPhoneAddressRecord p a now now with
    | .error e => (.error e, st)
    | .ok record => redis_create st record

/-- `PhoneAddressService.update_address` (`phone_address_service.py`
lines 135-187) behind an `UpdateAddressRequest` built from the raw
address (as the HTTP layer does): the request strips the address, the
service validates the phone, then delegates to repository `update`. -/
def service_update_address (st : Store) (phone rawAddress : String) (now : Nat) :
    Except PyError (Option PhoneAddressRecord) × Store :=
  match mkUpdateRequest rawAddress with
  | .error e => (.error e, st)
  | .ok addr =>
    match service_phone_check phone with
    | .error e => (.error e, st)
    | .ok _ => redis_update st phone addr now

/-- `PhoneAddressService.delete_record` (`phone_address_service.py`
lines 189-240): validates the phone, then delegates to repository
`delete`. -/
def service_delete_record (st : Store) (phone : String) :
    Except PyError Bool × Store :=
  match service_phone_check phone with
  | .error e => (.error e, st)
  | .ok _ =>
    let r := redis_delete st phone
    (.ok r.1, r.2)

/-- Whether `pat` is a leading segment of `s` (character lists). -/
def startsWithPat : List Char → List Char → Bool
  | [], _ => true
  | _ :: _, [] => false
  | p :: ps, c :: cs => p == c && startsWithPat ps cs

/-- Whether `pat` occurs contiguously inside `s` (character lists). -/
def hasSubList : List Char → List Char → Bool
  | [], pat => startsWithPat pat []
  | a :: rest, pat => startsWithPat pat (a :: rest) || hasSubList rest pat

/-- Python `pat in s` on strings. -/
def containsSub (s pat : String) : Bool := hasSubList s.data pat.data

/-- `ErrorHandlingMiddleware.dispatch` (`middleware.py` lines 116-230)
restricted to the exceptions of this embedding: a pydantic
`ValidationError` is caught first and answered 400; any other
`ValueError` is answered 409 exactly when its message contains
"already exists", else 400; remaining exceptions are answered 500. -/
def classifyStatus : PyError → Nat
  | .valueError true _ => 400
  | .valueError false m => if containsSub m "already exists" then 409 else 400
  | .typeError _ => 500
  | .runtimeError _ => 500

/-- Whether a result is a raised `ValueError` (the whole error taxonomy
of the spec is carried by `ValueError` values in this code). -/
def errIsValueError {α : Type} : Except PyError α → Bool
  | .error e => isValueError e
  | .ok _ => false

/-- A record all of whose fields re-validate to themselves: what every
record produced by the validating constructor satisfies. -/
def validRecord (r : PhoneAddressRecord) : Prop :=
  validate_phone_format r.phone = .ok r.phone ∧
  validate_address r.address = .ok r.address

/-- Dropping while a predicate holds is idempotent. -/
theorem dropWhile_twice (p : Char → Bool) (l : List Char) :
    (l.dropWhile p).dropWhile p = l.dropWhile p := by
  induction l with
  | nil => rfl
  | cons a t ih =>
    by_cases h : p a
    · simp [List.dropWhile_cons, h, ih]
    · simp [List.dropWhile_cons, h]

/-- Dropping while a predicate holds does not lengthen a list. -/
theorem length_dropWhile_le_own (p : Char → Bool) (l : List Char) :
    (l.dropWhile p).length ≤ l.length := by
  induction l with
  | nil => exact Nat.le_refl 0
  | cons a t ih =>
    by_cases h : p a
    · simp only [List.dropWhile_cons, h, if_true]
      exact Nat.le_trans ih (Nat.le_succ _)
    · simp [List.dropWhile_cons, h]

/-- When the first block is entirely dropped, dropping continues in the
second block. -/
theorem dropWhile_append_nil (p : Char → Bool) (l₁ l₂ : List Char)
    (h : l₁.dropWhile p = []) :
    (l₁ ++ l₂).dropWhile p = l₂.dropWhile p := by
  induction l₁ with
  | nil => rfl
  | cons a t ih =>
    by_cases hp : p a
    · rw [List.dropWhile_cons, if_pos hp] at h
      rw [List.cons_append, List.dropWhile_cons, if_pos hp]
      exact ih h
    · rw [List.dropWhile_cons, if_neg hp] at h
      exact absurd h (by simp)

/-- When dropping stops inside the first block, the second block is
appended untouched. -/
theorem dropWhile_append_cons (p : Char → Bool) (l₁ l₂ : List Char)
    (b : Char) (t : List Char) (h : l₁.dropWhile p = b :: t) :
    (l₁ ++ l₂).dropWhile p = b :: (t ++ l₂) := by
  induction l₁ with
  | nil => simp at h
  | cons a u ih =>
    by_cases hp : p a
    · rw [List.dropWhile_cons, if_pos hp] at h
      rw [List.cons_append, List.dropWhile_cons, if_pos hp]
      exact ih h
    · rw [List.dropWhile_cons, if_neg hp] at h
      cases h
      rw [List.cons_append, List.dropWhile_cons, if_neg hp]

/-- Behaviour of `dropTrailing` on a cons cell: either everything goes,
or the head survives. -/
theorem dropTrailing_cons (a : Char) (l : List Char) :
    dropTrailing (a :: l) = [] ∨ dropTrailing (a :: l) = a :: dropTrailing l := by
  unfold dropTrailing
  cases hrev : l.reverse.dropWhile isSpaceChar with
  | nil =>
    by_cases hp : isSpaceChar a
    · left
      simp [List.reverse_cons, dropWhile_append_nil isSpaceChar l.reverse [a] hrev,
            List.dropWhile_cons, hp]
    · right
      simp [List.reverse_cons, dropWhile_append_nil isSpaceChar l.reverse [a] hrev,
            List.dropWhile_cons, hp, hrev]
  | cons b t =>
    right
    rw [List.reverse_cons, dropWhile_append_cons isSpaceChar l.reverse [a] b t hrev]
    simp

/-- A list fixed by `dropLeading` stays fixed after `dropTrailing`. -/
theorem dropLeading_dropTrailing (l : List Char) (h : dropLeading l = l) :
    dropLeading (dropTrailing l) = dropTrailing l := by
  cases l with
  | nil => rfl
  | cons a t =>
    have hp : isSpaceChar a = false := by
      by_contra hc
      have hp' : isSpaceChar a = true := by
        cases hfa : isSpaceChar a with
        | false => exact absurd hfa hc
        | true => rfl
      unfold dropLeading at h
      rw [List.dropWhile_cons, hp', if_pos rfl] at h
      have hlen := length_dropWhile_le_own isSpaceChar t
      rw [h] at hlen
      simp at hlen
    rcases dropTrailing_cons a t with hd | hd
    · rw [hd]; rfl
    · rw [hd]
      unfold dropLeading
      simp [List.dropWhile_cons, hp]

/-- `dropTrailing` is idempotent. -/
theorem dropTrailing_twice (l : List Char) :
    dropTrailing (dropTrailing l) = dropTrailing l := by
  unfold dropTrailing
  rw [List.reverse_reverse, dropWhile_twice]

/-- The strip model is idempotent on character lists. -/
theorem stripList_idem (l : List Char) : stripList (stripList l) = stripList l := by
  unfold stripList
  have hfix : dropLeading (dropLeading l) = dropLeading l := dropWhile_twice _ _
  rw [dropLeading_dropTrailing (dropLeading l) hfix, dropTrailing_twice]

/-- Python `strip` is idempotent. -/
theorem strip_idem (s : String) : strip (strip s) = strip s := by
  unfold strip
  rw [show (String.mk (stripList s.data)).data = stripList s.data from rfl,
      stripList_idem]

/-- Stripping never lengthens a character list. -/
theorem stripList_length_le (l : List Char) : (stripList l).length ≤ l.length := by
  unfold stripList dropTrailing dropLeading
  calc ((l.dropWhile isSpaceChar).reverse.dropWhile isSpaceChar).reverse.length
      = ((l.dropWhile isSpaceChar).reverse.dropWhile isSpaceChar).length := by
        rw [List.length_reverse]
    _ ≤ (l.dropWhile isSpaceChar).reverse.length := length_dropWhile_le_own _ _
    _ = (l.dropWhile isSpaceChar).length := by rw [List.length_reverse]
    _ ≤ l.length := length_dropWhile_le_own _ _

/-- Python `strip` never lengthens a string. -/
theorem strip_length_le (s : String) : (strip s).length ≤ s.length :=
  stripList_length_le s.data

/-- A string whose stripped form matches the phone pattern is nonempty. -/
theorem phoneMatch_pos (t : String) (h : phoneMatch t = true) : 1 ≤ t.length := by
  by_contra hc
  have he : t.length = t.data.length := rfl
  have hlen : t.data.length = 0 := by omega
  have hnil : t.data = [] := List.eq_nil_of_length_eq_zero hlen
  unfold phoneMatch at h
  rw [hnil] at h
  exact absurd h (by decide)

/-- Characterization of successful phone validation: the raw value
satisfies the Field length constraints and the stripped value matches
the E.164 pattern, and the stripped value is what is returned. -/
theorem validate_phone_ok_iff (s x : String) :
    validate_phone_format s = .ok x ↔
      (1 ≤ s.length ∧ s.length ≤ 20 ∧ phoneMatch (strip s) = true ∧ x = strip s) := by
  unfold validate_phone_format
  split_ifs with h1 h2 h3
  · exact ⟨(fun h => nomatch h), (fun h => absurd h.1 (by omega))⟩
  · exact ⟨(fun h => nomatch h), (fun h => absurd h.2.1 (by omega))⟩
  · constructor
    · intro h
      injection h with h
      exact ⟨by omega, by omega, h3, h.symm⟩
    · intro h
      rw [h.2.2.2]
  · exact ⟨(fun h => nomatch h), (fun h => absurd h.2.2.1 h3)⟩

/-- Characterization of successful address validation: the raw value
satisfies the Field length constraints and the stripped value is
nonempty, and the stripped value is what is returned. -/
theorem validate_address_ok_iff (s x : String) :
    validate_address s = .ok x ↔
      (1 ≤ s.length ∧ s.length ≤ 500 ∧ strip s ≠ "" ∧ x = strip s) := by
  unfold validate_address
  split_ifs with h1 h2 h3
  · exact ⟨(fun h => nomatch h), (fun h => absurd h.1 (by omega))⟩
  · exact ⟨(fun h => nomatch h), (fun h => absurd h.2.1 (by omega))⟩
  · exact ⟨(fun h => nomatch h), (fun h => absurd h3 h.2.2.1)⟩
  · constructor
    · intro h
      injection h with h
      exact ⟨by omega, by omega, h3, h.symm⟩
    · intro h
      rw [h.2.2.2]

/-- A nonempty stripped string has positive length. -/
theorem strip_ne_empty_pos (s : String) (h : strip s ≠ "") : 1 ≤ (strip s).length := by
  by_contra hc
  apply h
  have he : (strip s).length = (strip s).data.length := rfl
  have hlen : (strip s).data.length = 0 := by omega
  have hnil : (strip s).data = [] := List.eq_nil_of_length_eq_zero hlen
  have heta : strip s = String.mk (strip s).data := rfl
  rw [heta, hnil]

/-- Phone validation is idempotent on its own output: the canonical
string re-validates to itself. -/
theorem validate_phone_canon (s x : String) (h : validate_phone_format s = .ok x) :
    validate_phone_format x = .ok x := by
  rw [validate_phone_ok_iff] at h
  obtain ⟨h1, h2, h3, rfl⟩ := h
  rw [validate_phone_ok_iff]
  refine ⟨phoneMatch_pos _ h3, Nat.le_trans (strip_length_le s) h2, ?_, ?_⟩
  · rw [strip_idem]
    exact h3
  · exact (strip_idem s).symm

/-- Address validation is idempotent on its own output. -/
theorem validate_address_canon (s x : String) (h : validate_address s = .ok x) :
    validate_address x = .ok x := by
  rw [validate_address_ok_iff] at h
  obtain ⟨h1, h2, h3, rfl⟩ := h
  rw [validate_address_ok_iff]
  refine ⟨strip_ne_empty_pos s h3, Nat.le_trans (strip_length_le s) h2, ?_, ?_⟩
  · rw [strip_idem]
    exact h3
  · exact (strip_idem s).symm

/-- Every phone-validation failure carries one of the three fixed
messages. -/
theorem validate_phone_error_cases (s e : String)
    (h : validate_phone_format s = .error e) :
    e = "String should have at least 1 character" ∨
    e = "String should have at most 20 characters" ∨
    e = "Phone number must be in E.164 format: + followed by 1-15 digits, starting with a non-zero digit" := by
  unfold validate_phone_format at h
  split_ifs at h with h1 h2 h3
  all_goals injection h with h
  · exact Or.inl h.symm
  · exact Or.inr (Or.inl h.symm)
  · exact Or.inr (Or.inr h.symm)

/-- Every address-validation failure carries one of the three fixed
messages. -/
theorem validate_address_error_cases (s e : String)
    (h : validate_address s = .error e) :
    e = "String should have at least 1 character" ∨
    e = "String should have at most 500 characters" ∨
    e = "Address cannot be empty or contain only whitespace" := by
  unfold validate_address at h
  split_ifs at h with h1 h2 h3
  all_goals injection h with h
  · exact Or.inl h.symm
  · exact Or.inr (Or.inl h.symm)
  · exact Or.inr (Or.inr h.symm)

/-- Serialization followed by deserialization is the identity on
records whose fields re-validate to themselves. -/
theorem recordOfJson_recordToJson (r : PhoneAddressRecord)
    (h1 : validate_phone_format r.phone = .ok r.phone)
    (h2 : validate_address r.address = .ok r.address) :
    recordOfJson (recordToJson r) = .ok r := by
  have e : recordOfJson (recordToJson r) =
      mkPhoneAddressRecord r.phone r.address r.created_at r.updated_at := rfl
  rw [e]
  unfold mkPhoneAddressRecord
  rw [h1, h2]

/-- Construction succeeds when both validators succeed, yielding the
validated field values. -/
theorem mk_record_ok (p a : String) (c u : Nat) (pv av : String)
    (hp : validate_phone_format p = .ok pv) (ha : validate_address a = .ok av) :
    mkPhoneAddressRecord p a c u = .ok ⟨pv, av, c, u⟩ := by
  unfold mkPhoneAddressRecord
  rw [hp, ha]

/-- Every failure of the validating constructor is a pydantic
`ValidationError` (hence a `ValueError`). -/
theorem mk_error_pydantic (p a : String) (c u : Nat) (e : PyError)
    (h : mkPhoneAddressRecord p a c u = .error e) :
    ∃ m, e = PyError.valueError true m := by
  unfold mkPhoneAddressRecord at h
  cases hp : validate_phone_format p with
  | error m =>
    cases ha : validate_address a with
    | error m2 =>
      rw [hp, ha] at h
      injection h with h
      exact ⟨m, h.symm⟩
    | ok av =>
      rw [hp, ha] at h
      injection h with h
      exact ⟨m, h.symm⟩
  | ok pv =>
    cases ha : validate_address a with
    | error m =>
      rw [hp, ha] at h
      injection h with h
      exact ⟨m, h.symm⟩
    | ok av =>
      rw [hp, ha] at h
      exact nomatch h

/-- Every failure of the validating constructor is a `ValueError`, is
answered 400 by the middleware, and its message never contains the
duplicate marker. -/
theorem mk_record_error_shape (p a : String) (c u : Nat) (e : PyError)
    (h : mkPhoneAddressRecord p a c u = .error e) :
    isValueError e = true ∧ classifyStatus e = 400 ∧
      containsSub (pyMsg e) "already exists" = false := by
  unfold mkPhoneAddressRecord at h
  cases hp : validate_phone_format p with
  | error m =>
    have he : e = PyError.valueError true m := by
      cases ha : validate_address a with
      | error m2 =>
        rw [hp, ha] at h
        injection h with h
        exact h.symm
      | ok av =>
        rw [hp, ha] at h
        injection h with h
        exact h.symm
    subst he
    rcases validate_phone_error_cases p m hp with rfl | rfl | rfl
    · exact ⟨rfl, rfl, by decide⟩
    · exact ⟨rfl, rfl, by decide⟩
    · exact ⟨rfl, rfl, by decide⟩
  | ok pv =>
    cases ha : validate_address a with
    | error m =>
      rw [hp, ha] at h
      injection h with h
      have he : e = PyError.valueError true m := h.symm
      subst he
      rcases validate_address_error_cases a m ha with rfl | rfl | rfl
      · exact ⟨rfl, rfl, by decide⟩
      · exact ⟨rfl, rfl, by decide⟩
      · exact ⟨rfl, rfl, by decide⟩
    | ok av =>
      rw [hp, ha] at h
      exact nomatch h

/-- Deserialization failures are never the corrupt-data `ValueError`:
they are pydantic `ValidationError`s or a `TypeError`. -/
theorem recordOfJson_error_not_corrupt (j : Json) (e : PyError)
    (h : recordOfJson j = .error e) :
    e ≠ PyError.valueError false "Corrupted data in storage" := by
  unfold recordOfJson at h
  split at h
  · split at h
    · rcases mk_error_pydantic _ _ _ _ _ h with ⟨m, rfl⟩
      simp
    · injection h with h
      have he : e = PyError.valueError true "Field required" := h.symm
      subst he
      decide
  · injection h with h
    have he : e = PyError.typeError "argument after asterisks must be a mapping" := h.symm
    subst he
    decide

/-- Looking up a freshly set key yields the new value. -/
theorem storeGet_storeSet_self (st : Store) (k : String) (v : StoredVal) :
    storeGet (storeSet st k v) k = some v := by
  show storeGet ((k, v) :: st) k = some v
  unfold storeGet
  rw [if_pos rfl]

/-- A freshly set key exists. -/
theorem storeExists_storeSet_self (st : Store) (k : String) (v : StoredVal) :
    storeExists (storeSet st k v) k = true := by
  unfold storeExists
  rw [storeGet_storeSet_self]
  rfl

/-- A deleted key is gone. -/
theorem storeGet_storeDelete_self (st : Store) (k : String) :
    storeGet (storeDelete st k) k = none := by
  induction st with
  | nil => rfl
  | cons hd tl ih =>
    obtain ⟨k', v⟩ := hd
    unfold storeDelete
    by_cases hk : k' = k
    · rw [if_pos hk]
      exact ih
    · rw [if_neg hk]
      show storeGet ((k', v) :: storeDelete tl k) k = none
      unfold storeGet
      rw [if_neg hk]
      exact ih

/-- A substring of the tail is a substring of the whole. -/
theorem hasSub_append (l m pat : List Char) (h : hasSubList m pat = true) :
    hasSubList (l ++ m) pat = true := by
  induction l with
  | nil =>
    rw [List.nil_append]
    exact h
  | cons a t ih =>
    rw [List.cons_append]
    simp only [hasSubList]
    rw [ih, Bool.or_true]

/-- The duplicate-create message always contains the marker the
middleware keys on. -/
theorem dupMsg_contains (p : String) : containsSub (dupMsg p) "already exists" = true := by
  unfold containsSub dupMsg
  rw [String.data_append, String.data_append]
  exact hasSub_append _ _ _ (by decide)

/-- C2 counterexample: a phone that is valid after stripping but whose
raw form is 22 characters long (19 spaces then "+12") is rejected by
the `max_length=20` Field constraint, although the claim says
validation succeeds exactly when the stripped string matches the
pattern. -/
theorem c2_phone_validation_counterexample :
    phoneMatch (strip "                   +12") = true ∧
    exceptOk (validate_phone_format "                   +12") = false :=
  ⟨by decide, by decide⟩

/-- C2 (amended): phone validation succeeds exactly when the raw string
is at most 20 characters long (the pydantic Field ceiling, checked
before stripping) and the stripped string matches an optional leading
plus, a non-zero digit, then 1 to 14 more digits; on success the
stripped string is returned. The spec examples all behave as claimed:
"+1234567890" is accepted, while "01234567890", "", "++123", "123abc"
and a 16-digit string are rejected. -/
theorem c2_phone_validation_spec :
    (∀ s : String,
      ((validate_phone_format s = .ok (strip s)) ↔
        (s.length ≤ 20 ∧ phoneMatch (strip s) = true)) ∧
      (∀ r, validate_phone_format s = .ok r → r = strip s)) ∧
    validate_phone_format "+1234567890" = .ok "+1234567890" ∧
    exceptOk (validate_phone_format "01234567890") = false ∧
    exceptOk (validate_phone_format "") = false ∧
    exceptOk (validate_phone_format "++123") = false ∧
    exceptOk (validate_phone_format "123abc") = false ∧
    exceptOk (validate_phone_format "1234567890123456") = false := by
  refine ⟨fun s => ⟨?_, ?_⟩, by rfl, by rfl, by rfl, by rfl, by rfl, by rfl⟩
  · constructor
    · intro h
      rw [validate_phone_ok_iff] at h
      exact ⟨h.2.1, h.2.2.1⟩
    · intro h
      rw [validate_phone_ok_iff]
      have hpos := phoneMatch_pos (strip s) h.2
      have hle := strip_length_le s
      exact ⟨by omega, h.1, h.2, rfl⟩
  · intro r h
    rw [validate_phone_ok_iff] at h
    exact h.2.2.2

/-- Witness for C2: a concrete padded phone is accepted with its
stripped value returned. -/
theorem c2_phone_validation_spec_witness :
    validate_phone_format "  +79991234567  " = .ok (strip "  +79991234567  ") ∧
    "+79991234567" = strip "  +79991234567  " :=
  ⟨((c2_phone_validation_spec.1 "  +79991234567  ").1).mpr ⟨by decide, by decide⟩,
   ((c2_phone_validation_spec.1 "  +79991234567  ").2) "+79991234567" (by rfl)⟩

set_option maxRecDepth 20000 in
/-- C3: address validation succeeds exactly when the raw (un-stripped)
string is at most 500 characters and the stripped string is nonempty;
on success the stripped string is returned. The spec examples hold: a
whitespace-only address is rejected, 500 letters are accepted, 501 are
rejected. -/
theorem c3_address_validation_spec :
    (∀ s : String,
      ((validate_address s = .ok (strip s)) ↔ (s.length ≤ 500 ∧ strip s ≠ "")) ∧
      (∀ r, validate_address s = .ok r → r = strip s)) ∧
    exceptOk (validate_address "   ") = false ∧
    validate_address (String.mk (List.replicate 500 'A')) =
      .ok (String.mk (List.replicate 500 'A')) ∧
    exceptOk (validate_address (String.mk (List.replicate 501 'A'))) = false := by
  refine ⟨fun s => ⟨?_, ?_⟩, by rfl, by rfl, by rfl⟩
  · constructor
    · intro h
      rw [validate_address_ok_iff] at h
      exact ⟨h.2.1, h.2.2.1⟩
    · intro h
      rw [validate_address_ok_iff]
      have hpos := strip_ne_empty_pos s h.2
      have hle := strip_length_le s
      exact ⟨by omega, h.1, h.2, rfl⟩
  · intro r h
    rw [validate_address_ok_iff] at h
    exact h.2.2.2

/-- Witness for C3: a concrete padded address is accepted with its
stripped value returned. -/
theorem c3_address_validation_spec_witness :
    validate_address " Main street 5 " = .ok (strip " Main street 5 ") ∧
    "Main street 5" = strip " Main street 5 " :=
  ⟨((c3_address_validation_spec.1 " Main street 5 ").1).mpr ⟨by decide, by decide⟩,
   ((c3_address_validation_spec.1 " Main street 5 ").2) "Main street 5" (by rfl)⟩

/-- The service phone pre-check wraps a phone validation failure in a
plain `ValueError` prefixed with "Invalid phone format: ". -/
theorem service_phone_check_error (phone m : String)
    (hp : validate_phone_format phone = .error m) :
    service_phone_check phone =
      .error (.valueError false ("Invalid phone format: " ++ m)) := by
  have hmk : mkPhoneAddressRecord phone "temp" 0 0 = .error (.valueError true m) := by
    unfold mkPhoneAddressRecord
    rw [hp]
    rfl
  unfold service_phone_check
  rw [hmk]
  rfl

/-- The service phone pre-check succeeds on a phone that validates. -/
theorem service_phone_check_ok (phone pv : String)
    (hp : validate_phone_format phone = .ok pv) :
    service_phone_check phone = .ok () := by
  unfold service_phone_check
  rw [mk_record_ok phone "temp" 0 0 pv "temp" hp (by rfl)]

/-- Every failure of `UpdateAddressRequest` construction is a pydantic
`ValidationError`. -/
theorem mkUpdateRequest_error_shape (a : String) (e : PyError)
    (h : mkUpdateRequest a = .error e) : ∃ m, e = PyError.valueError true m := by
  unfold mkUpdateRequest at h
  cases ha : validate_address a with
  | ok av =>
    rw [ha] at h
    exact nomatch h
  | error m =>
    rw [ha] at h
    injection h with h
    exact ⟨m, h.symm⟩

/-- C4: repository create on an existing key fails with the duplicate
`ValueError` and leaves the store untouched; consequently creating the
same phone twice fails on the second call. -/
theorem c4_duplicate_create :
    (∀ (st : Store) (r : PhoneAddressRecord),
      storeExists st (make_key r.phone) = true →
      redis_create st r = (.error (.valueError false (dupMsg r.phone)), st)) ∧
    (∀ (st : Store) (r₁ r₂ : PhoneAddressRecord),
      storeExists st (make_key r₁.phone) = false →
      r₂.phone = r₁.phone →
      (redis_create (redis_create st r₁).2 r₂).1 =
        .error (.valueError false (dupMsg r₂.phone))) := by
  constructor
  · intro st r h
    unfold redis_create
    rw [h]
    simp
  · intro st r₁ r₂ h hp
    have h2 : (redis_create st r₁).2 =
        storeSet st (make_key r₁.phone) (.jsonVal (recordToJson r₁)) := by
      unfold redis_create
      rw [h]
      simp
    rw [h2]
    unfold redis_create
    rw [hp, storeExists_storeSet_self]
    simp

/-- Witness for C4: a concrete duplicate create fails both directly and
after a fresh create of the same phone. -/
theorem c4_duplicate_create_witness :
    redis_create [(make_key "+12", StoredVal.jsonVal (recordToJson ⟨"+12", "x", 0, 0⟩))]
        ⟨"+12", "y", 1, 1⟩ =
      (.error (.valueError false (dupMsg "+12")),
       [(make_key "+12", StoredVal.jsonVal (recordToJson ⟨"+12", "x", 0, 0⟩))]) ∧
    (redis_create (redis_create [] ⟨"+12", "x", 0, 0⟩).2 ⟨"+12", "y", 1, 1⟩).1 =
      .error (.valueError false (dupMsg "+12")) :=
  ⟨c4_duplicate_create.1 _ ⟨"+12", "y", 1, 1⟩ (by rfl),
   c4_duplicate_create.2 [] ⟨"+12", "x", 0, 0⟩ ⟨"+12", "y", 1, 1⟩ (by rfl) (by rfl)⟩

/-- C8: repository delete returns true exactly when the key exists (it
raises nothing on a missing key, whose deletion is the normal false
outcome), and after a successful delete the key reads back absent. -/
theorem c8_delete_semantics :
    ∀ (st : Store) (p : String),
      (redis_delete st p).1 = storeExists st (make_key p) ∧
      ((redis_delete st p).1 = true →
        redis_get (redis_delete st p).2 p = .ok none) := by
  intro st p
  constructor
  · rfl
  · intro _
    show redis_get (storeDelete st (make_key p)) p = .ok none
    unfold redis_get
    rw [storeGet_storeDelete_self]

/-- Witness for C8: deleting a present phone returns true and the
subsequent get is absent. -/
theorem c8_delete_semantics_witness :
    (redis_delete [(make_key "+12", StoredVal.jsonVal (recordToJson ⟨"+12", "x", 0, 0⟩))] "+12").1 = true ∧
    redis_get (redis_delete [(make_key "+12", StoredVal.jsonVal (recordToJson ⟨"+12", "x", 0, 0⟩))] "+12").2 "+12" = .ok none :=
  ⟨(c8_delete_semantics [(make_key "+12", StoredVal.jsonVal (recordToJson ⟨"+12", "x", 0, 0⟩))] "+12").1.trans (by rfl),
   (c8_delete_semantics [(make_key "+12", StoredVal.jsonVal (recordToJson ⟨"+12", "x", 0, 0⟩))] "+12").2 (by rfl)⟩

/-- C6 counterexample: the stored value is valid JSON (the empty
object) and fails to deserialize into a record, yet repository get
raises a pydantic `ValidationError` that propagates unchanged — not
the `CorruptDataError` the claim requires for every deserialization
failure. -/
theorem c6_corrupt_data_counterexample :
    redis_get [(make_key "+12", StoredVal.jsonVal (Json.jobj []))] "+12" =
      .error (.valueError true "Field required") ∧
    PyError.valueError true "Field required" ≠
      PyError.valueError false "Corrupted data in storage" :=
  ⟨rfl, by decide⟩

/-- C6 (amended): repository get raises
`ValueError("Corrupted data in storage")` (the `CorruptDataError` of
the taxonomy) exactly for stored values that are not parseable as
JSON; a value that parses as JSON but fails record validation makes
get propagate the underlying validation or type error unchanged, which
is never the corrupt-data error. -/
theorem c6_corrupt_data :
    (∀ (st : Store) (p raw : String),
      storeGet st (make_key p) = some (.corrupt raw) →
      redis_get st p = .error (.valueError false "Corrupted data in storage")) ∧
    (∀ (st : Store) (p : String) (j : Json) (e : PyError),
      storeGet st (make_key p) = some (.jsonVal j) →
      recordOfJson j = .error e →
      redis_get st p = .error e ∧
      e ≠ .valueError false "Corrupted data in storage") := by
  constructor
  · intro st p raw h
    unfold redis_get
    rw [h]
  · intro st p j e hst hj
    refine ⟨?_, recordOfJson_error_not_corrupt j e hj⟩
    unfold redis_get
    rw [hst]
    show (match recordOfJson j with
          | .ok r => Except.ok (some r)
          | .error e2 => Except.error e2) = Except.error e
    rw [hj]

/-- Witness for C6: an unparseable stored value raises the corrupt-data
error, and a valid-JSON-but-invalid-record value raises a different,
non-corrupt error. -/
theorem c6_corrupt_data_witness :
    redis_get [(make_key "+12", StoredVal.corrupt "not json")] "+12" =
      .error (.valueError false "Corrupted data in storage") ∧
    (redis_get [(make_key "+13", StoredVal.jsonVal (Json.jobj []))] "+13" =
       .error (.valueError true "Field required") ∧
     PyError.valueError true "Field required" ≠
       PyError.valueError false "Corrupted data in storage") :=
  ⟨c6_corrupt_data.1 _ "+12" "not json" (by rfl),
   c6_corrupt_data.2 _ "+13" (Json.jobj [])
     (.valueError true "Field required") (by rfl) (by rfl)⟩

/-- C9: serializing a valid record to its JSON store representation and
deserializing it back (which re-runs the field validators) returns the
original record; this includes multi-byte UTF-8 address content. -/
theorem c9_serialization_roundtrip :
    (∀ r : PhoneAddressRecord, validRecord r →
      recordOfJson (recordToJson r) = .ok r) ∧
    recordOfJson (recordToJson ⟨"+79991234567", "улица Пушкина, дом 1 🏠", 3, 5⟩) =
      .ok ⟨"+79991234567", "улица Пушкина, дом 1 🏠", 3, 5⟩ := by
  constructor
  · intro r hr
    exact recordOfJson_recordToJson r hr.1 hr.2
  · exact recordOfJson_recordToJson _ (by rfl) (by rfl)

/-- Witness for C9: the round-trip evaluated on a concrete record with
a multi-byte UTF-8 address. -/
theorem c9_serialization_roundtrip_witness :
    recordOfJson (recordToJson ⟨"+15551234", "улица Пушкина, дом 1 🏠", 1, 2⟩) =
      .ok ⟨"+15551234", "улица Пушкина, дом 1 🏠", 1, 2⟩ :=
  c9_serialization_roundtrip.1 ⟨"+15551234", "улица Пушкина, дом 1 🏠", 1, 2⟩
    ⟨by rfl, by rfl⟩

/-- C10: the duplicate error, the corrupt-data error and the model
validation errors are all raised as the built-in `ValueError` (the
pydantic `ValidationError` subclasses it); the middleware answers 409
rather than 400 exactly when the raised plain `ValueError` message
contains the substring "already exists" — which the duplicate message
always does and the others never do. -/
theorem c10_error_taxonomy :
    (∀ (st : Store) (r : PhoneAddressRecord),
      storeExists st (make_key r.phone) = true →
      (redis_create st r).1 = .error (.valueError false (dupMsg r.phone)) ∧
      isValueError (.valueError false (dupMsg r.phone)) = true ∧
      containsSub (dupMsg r.phone) "already exists" = true ∧
      classifyStatus (.valueError false (dupMsg r.phone)) = 409) ∧
    (∀ (st : Store) (p raw : String),
      storeGet st (make_key p) = some (.corrupt raw) →
      redis_get st p = .error (.valueError false "Corrupted data in storage")) ∧
    (isValueError (.valueError false "Corrupted data in storage") = true ∧
     containsSub "Corrupted data in storage" "already exists" = false ∧
     classifyStatus (.valueError false "Corrupted data in storage") = 400) ∧
    (∀ (p a : String) (c u : Nat) (e : PyError),
      mkPhoneAddressRecord p a c u = .error e →
      isValueError e = true ∧ classifyStatus e = 400 ∧
      containsSub (pyMsg e) "already exists" = false) ∧
    (∀ m : String,
      classifyStatus (.valueError false m) = 409 ↔
        containsSub m "already exists" = true) := by
  refine ⟨?_, ?_, ⟨rfl, by decide, by decide⟩, mk_record_error_shape, ?_⟩
  · intro st r h
    refine ⟨?_, rfl, dupMsg_contains r.phone, ?_⟩
    · unfold redis_create
      rw [h]
      simp
    · show (if containsSub (dupMsg r.phone) "already exists" = true
            then (409 : Nat) else 400) = 409
      rw [dupMsg_contains]
      rfl
  · intro st p raw h
    unfold redis_get
    rw [h]
  · intro m
    show (if containsSub m "already exists" = true then (409 : Nat) else 400) = 409 ↔
      containsSub m "already exists" = true
    by_cases hm : containsSub m "already exists" = true
    · rw [if_pos hm]
      simp [hm]
    · rw [if_neg hm]
      constructor
      · intro h
        exact absurd h (by decide)
      · intro h
        exact absurd h hm

/-- Witness for C10: the three error producers evaluated at concrete
inputs, with their HTTP classifications. -/
theorem c10_error_taxonomy_witness :
    (redis_create [(make_key "+12", StoredVal.corrupt "z")] ⟨"+12", "x", 0, 0⟩).1 =
      .error (.valueError false (dupMsg "+12")) ∧
    redis_get [(make_key "+12", StoredVal.corrupt "z")] "+12" =
      .error (.valueError false "Corrupted data in storage") ∧
    classifyStatus (.valueError true "Phone number must be in E.164 format: + followed by 1-15 digits, starting with a non-zero digit") = 400 ∧
    classifyStatus (.valueError false (dupMsg "+12")) = 409 :=
  ⟨(c10_error_taxonomy.1 _ ⟨"+12", "x", 0, 0⟩ (by rfl)).1,
   c10_error_taxonomy.2.1 _ "+12" "z" (by rfl),
   (c10_error_taxonomy.2.2.2.1 "abc" "x" 0 0
     (.valueError true "Phone number must be in E.164 format: + followed by 1-15 digits, starting with a non-zero digit")
     (by rfl)).2.1,
   (c10_error_taxonomy.2.2.2.2 (dupMsg "+12")).mpr (dupMsg_contains "+12")⟩

/-- C7: when the phone fails validation, the service get, update and
delete operations all raise a `ValueError` (the taxonomy validation
error) before any store access: the result does not depend on the
store contents and the store state is returned unchanged. -/
theorem c7_prevalidation :
    ∀ (st st₂ : Store) (phone a2 : String) (now : Nat),
      exceptOk (validate_phone_format phone) = false →
      errIsValueError (service_get_address st phone) = true ∧
      service_get_address st phone = service_get_address st₂ phone ∧
      errIsValueError (service_update_address st phone a2 now).1 = true ∧
      (service_update_address st phone a2 now).2 = st ∧
      (service_update_address st phone a2 now).1 =
        (service_update_address st₂ phone a2 now).1 ∧
      errIsValueError (service_delete_record st phone).1 = true ∧
      (service_delete_record st phone).2 = st ∧
      (service_delete_record st phone).1 = (service_delete_record st₂ phone).1 := by
  intro st st₂ phone a2 now hfail
  obtain ⟨m, hv⟩ : ∃ m, validate_phone_format phone = .error m := by
    cases hvv : validate_phone_format phone with
    | ok v =>
      rw [hvv] at hfail
      exact absurd hfail (by simp [exceptOk])
    | error m => exact ⟨m, rfl⟩
  have hc := service_phone_check_error phone m hv
  have hga : ∀ s : Store, service_get_address s phone =
      .error (.valueError false ("Invalid phone format: " ++ m)) := by
    intro s
    unfold service_get_address
    rw [hc]
  have hdel : ∀ s : Store, service_delete_record s phone =
      (.error (.valueError false ("Invalid phone format: " ++ m)), s) := by
    intro s
    unfold service_delete_record
    rw [hc]
  obtain ⟨er, her, hval⟩ : ∃ er,
      (∀ s : Store, service_update_address s phone a2 now = (.error er, s)) ∧
      isValueError er = true := by
    cases hu : mkUpdateRequest a2 with
    | error e =>
      obtain ⟨m2, rfl⟩ := mkUpdateRequest_error_shape a2 e hu
      refine ⟨.valueError true m2, ?_, rfl⟩
      intro s
      unfold service_update_address
      rw [hu]
    | ok addr =>
      refine ⟨.valueError false ("Invalid phone format: " ++ m), ?_, rfl⟩
      intro s
      unfold service_update_address
      rw [hu]
      show (match service_phone_check phone with
            | .error e => (Except.error e, s)
            | .ok _ => redis_update s phone addr now) =
        (.error (.valueError false ("Invalid phone format: " ++ m)), s)
      rw [hc]
  refine ⟨?_, ?_, ?_, ?_, ?_, ?_, ?_, ?_⟩
  · rw [hga st]
    rfl
  · rw [hga st, hga st₂]
  · rw [her st]
    exact hval
  · rw [her st]
  · rw [her st, her st₂]
  · rw [hdel st]
    rfl
  · rw [hdel st]
  · rw [hdel st, hdel st₂]

/-- Witness for C7: the three service operations on an invalid phone,
evaluated against two different concrete stores. -/
theorem c7_prevalidation_witness :
    errIsValueError (service_get_address [] "abc") = true ∧
    service_get_address [] "abc" =
      service_get_address [(make_key "abc", StoredVal.corrupt "zzz")] "abc" ∧
    errIsValueError (service_update_address [] "abc" "x" 0).1 = true ∧
    (service_update_address [] "abc" "x" 0).2 = [] ∧
    (service_update_address [] "abc" "x" 0).1 =
      (service_update_address [(make_key "abc", StoredVal.corrupt "zzz")] "abc" "x" 0).1 ∧
    errIsValueError (service_delete_record [] "abc").1 = true ∧
    (service_delete_record [] "abc").2 = [] ∧
    (service_delete_record [] "abc").1 =
      (service_delete_record [(make_key "abc", StoredVal.corrupt "zzz")] "abc").1 :=
  c7_prevalidation [] [(make_key "abc", StoredVal.corrupt "zzz")] "abc" "x" 0 (by rfl)

/-- C5: repository update on a phone present in the store (as a
readable serialized valid record keyed by its own phone) writes back
and returns a record preserving the stored phone and created_at,
setting address to the stripped new address and updated_at to the
update-time clock value, which is at least the previous updated_at;
update on an absent phone returns None without error and leaves the
store unchanged. -/
theorem c5_update_semantics :
    (∀ (st : Store) (p a2 : String) (now : Nat) (r : PhoneAddressRecord),
      storeGet st (make_key p) = some (.jsonVal (recordToJson r)) →
      validRecord r →
      r.phone = p →
      validate_address a2 = .ok (strip a2) →
      r.updated_at ≤ now →
      redis_update st p a2 now =
        (.ok (some ⟨r.phone, strip a2, r.created_at, now⟩),
         storeSet st (make_key p)
           (.jsonVal (recordToJson ⟨r.phone, strip a2, r.created_at, now⟩))) ∧
      r.updated_at ≤
        (⟨r.phone, strip a2, r.created_at, now⟩ : PhoneAddressRecord).updated_at) ∧
    (∀ (st : Store) (p a2 : String) (now : Nat),
      storeGet st (make_key p) = none →
      redis_update st p a2 now = (.ok none, st)) := by
  constructor
  · intro st p a2 now r hst hvr hrp ha hnow
    have hrt : recordOfJson (recordToJson r) = .ok r :=
      recordOfJson_recordToJson r hvr.1 hvr.2
    have hget : redis_get st p = .ok (some r) := by
      unfold redis_get
      rw [hst]
      show (match recordOfJson (recordToJson r) with
            | .ok r2 => Except.ok (some r2)
            | .error e2 => Except.error e2) = Except.ok (some r)
      rw [hrt]
    have hp' : validate_phone_format p = .ok p := hrp ▸ hvr.1
    have hmk : mkPhoneAddressRecord p a2 r.created_at now =
        .ok ⟨p, strip a2, r.created_at, now⟩ :=
      mk_record_ok _ _ _ _ _ _ hp' ha
    refine ⟨?_, hnow⟩
    unfold redis_update
    rw [hget]
    show (match mkPhoneAddressRecord p a2 r.created_at now with
          | .error e => (Except.error e, st)
          | .ok updated =>
            (Except.ok (some updated),
             storeSet st (make_key p) (.jsonVal (recordToJson updated)))) = _
    rw [hmk, hrp]
  · intro st p a2 now hst
    have hget : redis_get st p = .ok none := by
      unfold redis_get
      rw [hst]
    unfold redis_update
    rw [hget]

/-- Witness for C5: a concrete update preserving phone and created_at,
trimming the new address and refreshing updated_at; and a concrete
absent update. -/
theorem c5_update_semantics_witness :
    (redis_update [(make_key "+12", StoredVal.jsonVal (recordToJson ⟨"+12", "Addr", 2, 3⟩))]
        "+12" " New Addr " 7 =
      (.ok (some ⟨"+12", strip " New Addr ", 2, 7⟩),
       storeSet [(make_key "+12", StoredVal.jsonVal (recordToJson ⟨"+12", "Addr", 2, 3⟩))]
         (make_key "+12") (.jsonVal (recordToJson ⟨"+12", strip " New Addr ", 2, 7⟩))) ∧
     (3 : Nat) ≤ 7) ∧
    redis_update [] "+12" "X" 0 = (.ok none, []) :=
  ⟨c5_update_semantics.1 _ "+12" " New Addr " 7 ⟨"+12", "Addr", 2, 3⟩
     (by rfl) (by exact ⟨rfl, rfl⟩) (by rfl) (by rfl) (by decide),
   c5_update_semantics.2 [] "+12" "X" 0 (by rfl)⟩

/-- C1 counterexample: the phone " +12" is accepted by validation
(stripping to "+12") and "x" is a valid address, yet create-then-get
with that same raw phone returns absent: create keys the store by the
stripped phone while get looks the raw argument up. -/
theorem c1_create_then_get_counterexample :
    validate_phone_format " +12" = .ok "+12" ∧
    validate_address "x" = .ok "x" ∧
    service_get_address (service_create_record [] " +12" "x" 0).2 " +12" = .ok none :=
  ⟨rfl, rfl, rfl⟩

/-- C1 (amended): for a valid phone equal to its stripped form (no
surrounding whitespace) and a valid address, service create followed
by service get with the same phone, on a store where the phone is not
yet present, returns the record with that phone and the trimmed
address. -/
theorem c1_create_then_get :
    ∀ (st : Store) (p a : String) (now : Nat),
      validate_phone_format p = .ok p →
      validate_address a = .ok (strip a) →
      storeGet st (make_key p) = none →
      service_get_address (service_create_record st p a now).2 p =
        .ok (some ⟨p, strip a, now, now⟩) := by
  intro st p a now hp ha hst
  have hreq : mkCreateRequest p a = .ok (p, strip a) := by
    unfold mkCreateRequest
    rw [hp, ha]
  have ha' : validate_address (strip a) = .ok (strip a) :=
    validate_address_canon a (strip a) ha
  have hmk : mkPhoneAddressRecord p (strip a) now now =
      .ok ⟨p, strip a, now, now⟩ :=
    mk_record_ok _ _ _ _ _ _ hp ha'
  have hex : storeExists st (make_key p) = false := by
    unfold storeExists
    rw [hst]
    rfl
  have hcr : service_create_record st p a now =
      (.ok ⟨p, strip a, now, now⟩,
       storeSet st (make_key p) (.jsonVal (recordToJson ⟨p, strip a, now, now⟩))) := by
    unfold service_create_record
    rw [hreq]
    show (match mkPhoneAddressRecord p (strip a) now now with
          | .error e => (Except.error e, st)
          | .ok record => redis_create st record) = _
    rw [hmk]
    show redis_create st ⟨p, strip a, now, now⟩ = _
    unfold redis_create
    rw [hex]
    rfl
  have hchk : service_phone_check p = .ok () := service_phone_check_ok p p hp
  have hrt : recordOfJson (recordToJson (⟨p, strip a, now, now⟩ : PhoneAddressRecord)) =
      .ok ⟨p, strip a, now, now⟩ :=
    recordOfJson_recordToJson _ hp ha'
  rw [hcr]
  show service_get_address
      (storeSet st (make_key p) (.jsonVal (recordToJson ⟨p, strip a, now, now⟩))) p =
    .ok (some ⟨p, strip a, now, now⟩)
  unfold service_get_address
  rw [hchk]
  show redis_get
      (storeSet st (make_key p) (.jsonVal (recordToJson ⟨p, strip a, now, now⟩))) p =
    .ok (some ⟨p, strip a, now, now⟩)
  unfold redis_get
  rw [storeGet_storeSet_self]
  show (match recordOfJson (recordToJson (⟨p, strip a, now, now⟩ : PhoneAddressRecord)) with
        | .ok r => Except.ok (some r)
        | .error e => Except.error e) = .ok (some ⟨p, strip a, now, now⟩)
  rw [hrt]

/-- Witness for C1: a concrete canonical phone and padded address
round through create then get. -/
theorem c1_create_then_get_witness :
    service_get_address (service_create_record [] "+12" " Some Addr " 5).2 "+12" =
      .ok (some ⟨"+12", strip " Some Addr ", 5, 5⟩) :=
  c1_create_then_get [] "+12" " Some Addr " 5 (by rfl) (by rfl) (by rfl)
